import Mathlib

/-!
Verification of the madeira-pass core against its TypeScript sources:
`src/utils/distance.ts` (great-circle and point-to-geometry distance),
`src/utils/cookies.ts` (the day-scoped paid-route ledger) and the
proximity / route-loading effects of `src/App.tsx`.

Numbers are modelled as real numbers; the JavaScript value `Infinity`
that the distance code uses as an identity for minimisation is modelled
by working in `WithTop ℝ`, whose `⊤` plays the role of `Infinity`.
Browser-supplied inputs (the current date string, the cookie contents,
the fetched catalogue) are passed as explicit parameters.
-/

namespace MadeiraPass

/-- Distances in meters, with `⊤` standing for the JavaScript `Infinity`. -/
abbrev Meters := WithTop ℝ

open Classical in
/-- Two-argument arctangent, the semantics of JavaScript `Math.atan2(y, x)`
on finite inputs. -/
noncomputable def atan2 (y x : ℝ) : ℝ :=
  if 0 < x then Real.arctan (y / x)
  else if x < 0 ∧ 0 ≤ y then Real.arctan (y / x) + Real.pi
  else if x < 0 ∧ y < 0 then Real.arctan (y / x) - Real.pi
  else if x = 0 ∧ 0 < y then Real.pi / 2
  else if x = 0 ∧ y < 0 then -(Real.pi / 2)
  else 0

/-- `calculateDistance` from `src/utils/distance.ts`: haversine great-circle
distance in meters on a sphere of radius 6,371,000 m. -/
noncomputable def calculateDistance (lat1 lon1 lat2 lon2 : ℝ) : ℝ :=
  let R : ℝ := 6371000
  let φ1 := lat1 * Real.pi / 180
  let φ2 := lat2 * Real.pi / 180
  let dPhi := (lat2 - lat1) * Real.pi / 180
  let dLam := (lon2 - lon1) * Real.pi / 180
  let a := Real.sin (dPhi / 2) * Real.sin (dPhi / 2) +
    Real.cos φ1 * Real.cos φ2 * Real.sin (dLam / 2) * Real.sin (dLam / 2)
  let c := 2 * atan2 (Real.sqrt a) (Real.sqrt (1 - a))
  R * c

open Classical in
/-- `distanceToSegment` from `src/utils/distance.ts`: distance from point
`(px, py)` (x = longitude, y = latitude) to the segment from `(x1, y1)` to
`(x2, y2)`, by planar parametric projection clamped to the segment followed
by a great-circle distance to the clamped projection. -/
noncomputable def distanceToSegment (px py x1 y1 x2 y2 : ℝ) : ℝ :=
  let A := px - x1
  let B := py - y1
  let C := x2 - x1
  let D := y2 - y1
  let dot := A * C + B * D
  let lenSq := C * C + D * D
  let param := if lenSq ≠ 0 then dot / lenSq else -1
  let xx := if param < 0 then x1 else if param > 1 then x2 else x1 + param * C
  let yy := if param < 0 then y1 else if param > 1 then y2 else y1 + param * D
  calculateDistance py px yy xx

/-- GeoJSON geometry variants.  Coordinate pairs are `(longitude, latitude)`,
as in GeoJSON.  The variants beyond the first three are the ones the code
treats as unsupported. -/
inductive Geometry where
  | point (coord : ℝ × ℝ)
  | lineString (coords : List (ℝ × ℝ))
  | multiLineString (lines : List (List (ℝ × ℝ)))
  | polygon (rings : List (List (ℝ × ℝ)))
  | multiPoint (coords : List (ℝ × ℝ))
  | multiPolygon (polys : List (List (List (ℝ × ℝ))))
  | geometryCollection

/-- The inner loop of `distanceToGeometry` for one coordinate list: fold the
running minimum over the point-to-segment distances of all consecutive
coordinate pairs. -/
noncomputable def segmentsFold (lat lon : ℝ) (acc : Meters) (coords : List (ℝ × ℝ)) : Meters :=
  (coords.zip coords.tail).foldl
    (fun m pq => min m ((distanceToSegment lon lat pq.1.1 pq.1.2 pq.2.1 pq.2.2 : ℝ) : Meters)) acc

/-- `distanceToGeometry` from `src/utils/distance.ts`: minimum distance in
meters from `(latitude, longitude)` to a GeoJSON geometry; `⊤` (Infinity)
for unsupported variants. -/
noncomputable def distanceToGeometry (latitude longitude : ℝ) : Geometry → Meters
  | .point c => ((calculateDistance latitude longitude c.2 c.1 : ℝ) : Meters)
  | .lineString coords => segmentsFold latitude longitude ⊤ coords
  | .multiLineString lines => lines.foldl (segmentsFold latitude longitude) ⊤
  | .polygon _ => ⊤
  | .multiPoint _ => ⊤
  | .multiPolygon _ => ⊤
  | .geometryCollection => ⊤

/-! ## The day-scoped paid-route ledger (`src/utils/cookies.ts`)

The cookie's persisted value is a JSON array of `PaidRoute` records; we
model it as a `List PaidRoute` and the cookie read/write round-trip as
passing that list.  The current date (`new Date().toISOString().split('T')[0]`
in the source) is injected as the `today` parameter. -/

/-- A stored payment mark: `PaidRoute` from `src/types/index.ts`. -/
structure PaidRoute where
  routeId : String
  paidDate : String
deriving DecidableEq, Repr

/-- `isRoutePaid` from `src/utils/cookies.ts`: true iff some stored record
has this `routeId` and today's date. -/
def isRoutePaid (stored : List PaidRoute) (routeId today : String) : Bool :=
  stored.any (fun route => route.routeId == routeId && route.paidDate == today)

/-- `markRoutePaid` from `src/utils/cookies.ts`: drop every existing entry
for this route, then append a fresh entry dated today. -/
def markRoutePaid (stored : List PaidRoute) (routeId today : String) : List PaidRoute :=
  stored.filter (fun route => route.routeId != routeId) ++ [{ routeId := routeId, paidDate := today }]

/-- Modelled from the spec: `unmarkRoutePaid` is imported by `src/App.tsx`
from `./utils/cookies`, but its definition is not among the provided
sources.  The spec says it "removes any active mark for routeId, regardless
of date. No-op and non-failing if no mark exists." -/
def unmarkRoutePaid (stored : List PaidRoute) (routeId : String) : List PaidRoute :=
  stored.filter (fun route => route.routeId != routeId)

/-- `clearPaidRoutes` from `src/utils/cookies.ts`: expire the cookie, after
which `getPaidRoutes` reads the empty list. -/
def clearPaidRoutes (_stored : List PaidRoute) : List PaidRoute := []

/-- One user-driven ledger mutation. -/
inductive LedgerOp where
  | mark (routeId today : String)
  | unmark (routeId : String)
  | clear

/-- Apply one ledger operation to the persisted list. -/
def applyOp (stored : List PaidRoute) : LedgerOp → List PaidRoute
  | .mark routeId today => markRoutePaid stored routeId today
  | .unmark routeId => unmarkRoutePaid stored routeId
  | .clear => clearPaidRoutes stored

/-- Apply a sequence of ledger operations, oldest first. -/
def applyOps (ops : List LedgerOp) (stored : List PaidRoute) : List PaidRoute :=
  ops.foldl applyOp stored

/-- The ledger invariant: at most one stored mark per route id. -/
def atMostOnePerRoute (stored : List PaidRoute) : Prop :=
  (stored.map (fun route => route.routeId)).Nodup

/-! ## The route catalogue and the nearest-route scan (`src/App.tsx`) -/

/-- The properties of a catalogue feature used by the proximity logic
(`RouteFeature.properties` in `src/types/index.ts`). -/
structure RouteProps where
  id : String
  name : String
  requiresPayment : Bool

/-- One GeoJSON feature of the catalogue. -/
structure RouteFeature where
  properties : RouteProps
  geometry : Geometry

/-- The loaded catalogue (`RouteCollection.features`). -/
abbrev RouteCollection := List RouteFeature

/-- A scan result entry: `NearbyRoute` from `src/types/index.ts`. -/
structure NearbyRoute where
  route : RouteFeature
  distance : Meters

open Classical in
/-- The body of the nearest-route loop in `src/App.tsx` (lines 100-111):
starting from `closestRoute = null`, `minDistance = Infinity`, each feature
whose distance is strictly below the running minimum replaces the current
best. -/
noncomputable def scanLoop (lat lon : ℝ) :
    List RouteFeature → Option NearbyRoute → Meters → Option NearbyRoute × Meters
  | [], best, bestD => (best, bestD)
  | f :: rest, best, bestD =>
    let d := distanceToGeometry lat lon f.geometry
    if d < bestD then scanLoop lat lon rest (some { route := f, distance := d }) d
    else scanLoop lat lon rest best bestD

/-- The full nearest-route scan of `src/App.tsx`. -/
noncomputable def nearestScan (lat lon : ℝ) (routes : List RouteFeature) :
    Option NearbyRoute × Meters :=
  scanLoop lat lon routes none ⊤

/-- The minimum of the catalogue's distances, `⊤` for the empty catalogue
(specification-side helper used to state what the scan returns). -/
noncomputable def listMin (lat lon : ℝ) : List RouteFeature → Meters
  | [] => ⊤
  | f :: rest => min (distanceToGeometry lat lon f.geometry) (listMin lat lon rest)

/-- The fixed 50-meter proximity threshold of `src/App.tsx`. -/
noncomputable def PROXIMITY_THRESHOLD : Meters := ((50 : ℝ) : Meters)

/-- A device location fix (`UserLocation` in `src/types/index.ts`). -/
structure UserLocation where
  latitude : ℝ
  longitude : ℝ
  accuracy : ℝ

/-- The views of the info panel (`InfoPanelView` in `src/types/index.ts`). -/
inductive InfoPanelView where
  | main
  | routesList
  | passInfo
  | about
  | routeDetail

/-- The info-panel presentation state (`InfoPanelState` in
`src/types/index.ts`); the initial state is `⟨false, .main, none, none⟩`. -/
structure InfoPanelState where
  isOpen : Bool
  view : InfoPanelView
  selectedRoute : Option RouteFeature := none
  nearbyRoute : Option NearbyRoute := none

open Classical in
/-- The proximity effect of `src/App.tsx` (lines 94-128): scan for the
nearest route; when one was found within the threshold, requires payment
and is not paid today, open the route-detail panel for it; in every other
case leave the panel state untouched.  The cookie contents and the current
date are the `stored` / `today` parameters. -/
noncomputable def checkProximity (loc : UserLocation) (routes : List RouteFeature)
    (stored : List PaidRoute) (today : String) (panel : InfoPanelState) : InfoPanelState :=
  match (nearestScan loc.latitude loc.longitude routes).1 with
  | none => panel
  | some closest =>
    if closest.distance ≤ PROXIMITY_THRESHOLD then
      if closest.route.properties.requiresPayment &&
          !(isRoutePaid stored closest.route.properties.id today) then
        { isOpen := true, view := .routeDetail, selectedRoute := some closest.route,
          nearbyRoute := some closest }
      else panel
    else panel

/-- The route-loading effect of `src/App.tsx` (lines 24-38): a successfully
fetched and parsed body is installed as-is by `setRoutes`; a failed fetch
is logged and the current catalogue (initially `none`) is kept.  No
validation of any kind is performed on the parsed data. -/
def loadRoutes (fetched : Except String RouteCollection) (current : Option RouteCollection) :
    Option RouteCollection :=
  match fetched with
  | .ok data => some data
  | .error _ => current

/-- A catalogue contains a duplicated route id (the condition the spec says
`load` must reject). -/
def hasDuplicateIds (routes : RouteCollection) : Prop :=
  ¬ (routes.map (fun f => f.properties.id)).Nodup

/-- Concrete fixture: a payment-requiring route whose geometry is the single
point at latitude 0, longitude 0. -/
noncomputable def pr8Route : RouteFeature :=
  { properties := ⟨"PR8", "Vereda da Ponta de Sao Lourenco", true⟩,
    geometry := .point (0, 0) }

/-- Concrete fixture: a free route at the same point. -/
noncomputable def freeRoute : RouteFeature :=
  { properties := { id := "PR-FREE", name := "Free route", requiresPayment := false },
    geometry := .point (0, 0) }

/-- Concrete fixture: a feature with an unsupported (Polygon) geometry. -/
noncomputable def unsupportedRoute : RouteFeature :=
  { properties := { id := "POLY", name := "Polygon feature", requiresPayment := true },
    geometry := .polygon [[(0, 0), (0, 1), (1, 0)]] }

/-- Concrete fixture: a catalogue carrying the id "PR8" twice. -/
noncomputable def dupCatalogue : RouteCollection :=
  [pr8Route, { properties := ⟨"PR8", "Duplicate PR8", false⟩, geometry := .point (1, 1) }]

/-! ## Theorems -/

/-- The haversine distance from a point to itself is zero: the intermediate
term `a` is `0`, so `atan2 (sqrt 0) (sqrt 1) = arctan 0 = 0`. -/
theorem calculateDistance_self (lat lon : ℝ) : calculateDistance lat lon lat lon = 0 := by
  simp [calculateDistance, atan2, Real.arctan_zero]

/-- C8: for a single-point geometry, `distanceToGeometry` is the great-circle
distance to that point; every variant other than Point, LineString and
MultiLineString yields `⊤` (Infinity) — unsupported shapes are a value, not
an exception, so one unsupported feature cannot abort the nearest-route
scan. -/
theorem distanceToGeometry_point_and_unsupported (latitude longitude : ℝ) :
    (∀ clon clat : ℝ, distanceToGeometry latitude longitude (.point (clon, clat)) =
      ((calculateDistance latitude longitude clat clon : ℝ) : Meters)) ∧
    (∀ rings, distanceToGeometry latitude longitude (.polygon rings) = ⊤) ∧
    (∀ coords, distanceToGeometry latitude longitude (.multiPoint coords) = ⊤) ∧
    (∀ polys, distanceToGeometry latitude longitude (.multiPolygon polys) = ⊤) ∧
    distanceToGeometry latitude longitude .geometryCollection = ⊤ := by
  refine ⟨fun clon clat => rfl, fun rings => rfl, fun coords => rfl, fun polys => rfl, rfl⟩

/-- C9: on a zero-length segment (both endpoints coincide, so `C = D = 0`
and `lenSq = 0`), the guard keeps `param = -1`, the clamp selects the first
endpoint, and the result is the great-circle distance to that endpoint;
no division by zero is performed. -/
theorem distanceToSegment_degenerate (px py x1 y1 x2 y2 : ℝ)
    (hx : x2 = x1) (hy : y2 = y1) :
    distanceToSegment px py x1 y1 x2 y2 = calculateDistance py px y1 x1 := by
  subst hx hy
  simp [distanceToSegment]

/-- Witness for C9 at a concrete zero-length segment. -/
theorem distanceToSegment_degenerate_witness :
    (3 : ℝ) = 3 ∧ (4 : ℝ) = 4 ∧
      distanceToSegment 1 2 3 4 3 4 = calculateDistance 2 1 4 3 :=
  ⟨rfl, rfl, distanceToSegment_degenerate 1 2 3 4 3 4 rfl rfl⟩

theorem applyOp_preserves_atMostOne (stored : List PaidRoute) (op : LedgerOp)
    (h : atMostOnePerRoute stored) : atMostOnePerRoute (applyOp stored op) := by
  cases op with
  | mark routeId today =>
    have hsub : ((stored.filter (fun route => route.routeId != routeId)).map
        (fun route => route.routeId)).Sublist (stored.map (fun route => route.routeId)) :=
      (List.filter_sublist _).map _
    have hnodup := h.sublist hsub
    show ((stored.filter (fun route => route.routeId != routeId) ++
      [({ routeId := routeId, paidDate := today } : PaidRoute)]).map
        (fun route : PaidRoute => route.routeId)).Nodup
    rw [List.map_append]
    refine List.Nodup.append hnodup (List.nodup_singleton _) ?_
    intro x hx hx1
    simp only [List.mem_map, List.mem_filter, bne_iff_ne, ne_eq] at hx
    obtain ⟨r, ⟨_, hne⟩, hxid⟩ := hx
    simp only [List.map_cons, List.map_nil, List.mem_singleton] at hx1
    exact hne (hxid.trans hx1)
  | unmark routeId =>
    exact h.sublist ((List.filter_sublist _).map _)
  | clear =>
    exact List.nodup_nil

/-- C5: every reachable ledger has at most one mark per route id — any
sequence of mark/unmark/clear operations preserves the invariant — and a
fresh mark supersedes prior marks: after `markRoutePaid stored routeId today`,
any entry carrying `routeId` is exactly the new mark dated `today`. -/
theorem ledger_atMostOne_and_supersede :
    (∀ (ops : List LedgerOp) (stored : List PaidRoute), atMostOnePerRoute stored →
      atMostOnePerRoute (applyOps ops stored)) ∧
    (∀ (stored : List PaidRoute) (routeId today : String) (m : PaidRoute),
      m ∈ markRoutePaid stored routeId today → m.routeId = routeId →
        m = { routeId := routeId, paidDate := today }) := by
  constructor
  · intro ops
    induction ops with
    | nil => intro stored h; exact h
    | cons op rest ih =>
      intro stored h
      exact ih (applyOp stored op) (applyOp_preserves_atMostOne stored op h)
  · intro stored routeId today m hm hid
    simp only [markRoutePaid, List.mem_append, List.mem_filter, bne_iff_ne, ne_eq,
      List.mem_singleton] at hm
    rcases hm with ⟨_, hne⟩ | h1
    · exact absurd hid hne
    · exact h1

/-- Witness for C5 at a concrete operation sequence from the empty ledger. -/
theorem ledger_atMostOne_and_supersede_witness :
    atMostOnePerRoute ([] : List PaidRoute) ∧
      atMostOnePerRoute (applyOps
        [.mark "PR8" "2025-06-01", .mark "PR8" "2025-06-02", .mark "PR1" "2025-06-02",
          .unmark "PR8"] []) ∧
      ({ routeId := "PR8", paidDate := "2025-06-01" } : PaidRoute) ∈
          markRoutePaid [] "PR8" "2025-06-01" ∧
      ({ routeId := "PR8", paidDate := "2025-06-01" } : PaidRoute) =
        { routeId := "PR8", paidDate := "2025-06-01" } :=
  ⟨by simp [atMostOnePerRoute],
    ledger_atMostOne_and_supersede.1 _ [] (by simp [atMostOnePerRoute]),
    by simp [markRoutePaid],
    ledger_atMostOne_and_supersede.2 [] "PR8" "2025-06-01" _ (by simp [markRoutePaid]) rfl⟩

/-- C3: `isRoutePaid stored routeId today` is true exactly when a stored
mark for `routeId` carries the date `today`; in particular a single mark
dated `d1` answers unpaid for any other query date `d2`. -/
theorem isRoutePaid_iff :
    (∀ (stored : List PaidRoute) (routeId today : String),
      isRoutePaid stored routeId today = true ↔
        ∃ m ∈ stored, m.routeId = routeId ∧ m.paidDate = today) ∧
    (∀ (routeId d1 d2 : String), d1 ≠ d2 →
      isRoutePaid [{ routeId := routeId, paidDate := d1 }] routeId d2 = false) := by
  constructor
  · intro stored routeId today
    simp [isRoutePaid, List.any_eq_true]
  · intro routeId d1 d2 hne
    simp [isRoutePaid, hne]

/-- Witness for C3: a mark written on one date does not count on another. -/
theorem isRoutePaid_iff_witness :
    ("2025-06-01" : String) ≠ "2025-06-02" ∧
      isRoutePaid [{ routeId := "PR8", paidDate := "2025-06-01" }] "PR8" "2025-06-02" = false :=
  ⟨by decide, isRoutePaid_iff.2 "PR8" "2025-06-01" "2025-06-02" (by decide)⟩

/-- C6: after `unmarkRoutePaid`, `isRoutePaid` answers false for that route
on every date, and when no stored mark carries the route id the operation
returns the ledger unchanged (a non-failing no-op). -/
theorem unmarkRoutePaid_removes :
    (∀ (stored : List PaidRoute) (routeId today : String),
      isRoutePaid (unmarkRoutePaid stored routeId) routeId today = false) ∧
    (∀ (stored : List PaidRoute) (routeId : String),
      (∀ m ∈ stored, m.routeId ≠ routeId) → unmarkRoutePaid stored routeId = stored) := by
  constructor
  · intro stored routeId today
    rw [isRoutePaid, unmarkRoutePaid, List.any_eq_false]
    intro m hm
    simp only [List.mem_filter, bne_iff_ne, ne_eq] at hm
    simp only [Bool.and_eq_true, beq_iff_eq, not_and]
    intro hid _
    exact hm.2 hid
  · intro stored routeId h
    simp only [unmarkRoutePaid]
    exact List.filter_eq_self.mpr (fun m hm => by simpa using h m hm)

/-- Witness for C6: unmark then query, and the no-op case. -/
theorem unmarkRoutePaid_removes_witness :
    isRoutePaid (unmarkRoutePaid [{ routeId := "PR8", paidDate := "2025-06-01" }] "PR8")
        "PR8" "2025-06-01" = false ∧
      (∀ m ∈ [({ routeId := "PR1", paidDate := "2025-06-01" } : PaidRoute)],
        m.routeId ≠ "PR8") ∧
      unmarkRoutePaid [{ routeId := "PR1", paidDate := "2025-06-01" }] "PR8" =
        [{ routeId := "PR1", paidDate := "2025-06-01" }] :=
  ⟨unmarkRoutePaid_removes.1 _ "PR8" "2025-06-01", by decide,
    unmarkRoutePaid_removes.2 _ "PR8" (by decide)⟩

/-- C10 (frame): `markRoutePaid` touches only the entries of the marked
route — the subsequence of entries for every other route id, including
their dates and relative order, is exactly what it was before. -/
theorem markRoutePaid_frame (stored : List PaidRoute) (routeId today : String) :
    (markRoutePaid stored routeId today).filter (fun r => r.routeId != routeId) =
      stored.filter (fun r => r.routeId != routeId) := by
  simp [markRoutePaid, List.filter_append, List.filter_filter]

theorem scanLoop_snd (lat lon : ℝ) (l : List RouteFeature) :
    ∀ (best : Option NearbyRoute) (bestD : Meters),
      (scanLoop lat lon l best bestD).2 = min bestD (listMin lat lon l) := by
  induction l with
  | nil =>
    intro best bestD
    simp [scanLoop, listMin]
  | cons f rest ih =>
    intro best bestD
    rw [scanLoop, listMin]
    by_cases hd : distanceToGeometry lat lon f.geometry < bestD
    · rw [if_pos hd, ih]
      have hle : min (distanceToGeometry lat lon f.geometry) (listMin lat lon rest) ≤ bestD :=
        le_of_lt (lt_of_le_of_lt (min_le_left _ _) hd)
      exact (min_eq_right hle).symm
    · rw [if_neg hd, ih]
      have hle : bestD ≤ distanceToGeometry lat lon f.geometry := le_of_not_lt hd
      rw [← min_assoc, min_eq_left hle]

theorem scanLoop_stays (lat lon : ℝ) (l : List RouteFeature) :
    ∀ (best : Option NearbyRoute) (bestD : Meters),
      ¬ listMin lat lon l < bestD → scanLoop lat lon l best bestD = (best, bestD) := by
  induction l with
  | nil =>
    intro best bestD _
    rfl
  | cons f rest ih =>
    intro best bestD h
    rw [listMin, min_lt_iff] at h
    push_neg at h
    rw [scanLoop, if_neg (not_lt_of_le h.1)]
    exact ih best bestD (not_lt_of_le h.2)

theorem scanLoop_finds (lat lon : ℝ) (l : List RouteFeature) :
    ∀ (best : Option NearbyRoute) (bestD : Meters), listMin lat lon l < bestD →
      ∃ pre r post, l = pre ++ r :: post ∧
        distanceToGeometry lat lon r.geometry = listMin lat lon l ∧
        (∀ f ∈ pre, listMin lat lon l < distanceToGeometry lat lon f.geometry) ∧
        (scanLoop lat lon l best bestD).1 =
          some { route := r, distance := listMin lat lon l } := by
  induction l with
  | nil =>
    intro best bestD h
    exact absurd h (not_top_lt)
  | cons f rest ih =>
    intro best bestD h
    have hmin : listMin lat lon (f :: rest) =
        min (distanceToGeometry lat lon f.geometry) (listMin lat lon rest) := rfl
    by_cases hd : distanceToGeometry lat lon f.geometry < bestD
    · by_cases hL : listMin lat lon rest < distanceToGeometry lat lon f.geometry
      · have hm : listMin lat lon (f :: rest) = listMin lat lon rest := by
          rw [hmin]; exact min_eq_right (le_of_lt hL)
        obtain ⟨pre, r, post, hsplit, hdist, hpre, hres⟩ :=
          ih (some { route := f, distance := distanceToGeometry lat lon f.geometry })
            (distanceToGeometry lat lon f.geometry) hL
        refine ⟨f :: pre, r, post, by rw [hsplit, List.cons_append], by rw [hm, hdist], ?_, ?_⟩
        · intro g hg
          rcases List.mem_cons.mp hg with hg | hg
          · rw [hg] at *
            rw [hm]; exact hL
          · rw [hm]; exact hpre g hg
        · rw [scanLoop, if_pos hd, hm]
          exact hres
      · have hle : distanceToGeometry lat lon f.geometry ≤ listMin lat lon rest :=
          le_of_not_lt hL
        have hm : listMin lat lon (f :: rest) = distanceToGeometry lat lon f.geometry := by
          rw [hmin]; exact min_eq_left hle
        refine ⟨[], f, rest, rfl, hm.symm, by intro g hg; exact absurd hg (List.not_mem_nil g), ?_⟩
        rw [scanLoop, if_pos hd,
          scanLoop_stays lat lon rest _ _ (not_lt_of_le hle), hm]
    · have hbd : bestD ≤ distanceToGeometry lat lon f.geometry := le_of_not_lt hd
      have hL : listMin lat lon rest < bestD := by
        rw [hmin, min_lt_iff] at h
        rcases h with h | h
        · exact absurd h hd
        · exact h
      have hm : listMin lat lon (f :: rest) = listMin lat lon rest := by
        rw [hmin]
        exact min_eq_right (le_of_lt (lt_of_lt_of_le hL hbd))
      obtain ⟨pre, r, post, hsplit, hdist, hpre, hres⟩ := ih best bestD hL
      refine ⟨f :: pre, r, post, by rw [hsplit, List.cons_append], by rw [hm, hdist], ?_, ?_⟩
      · intro g hg
        rcases List.mem_cons.mp hg with hg | hg
        · rw [hg] at *
          rw [hm]; exact lt_of_lt_of_le hL hbd
        · rw [hm]; exact hpre g hg
      · rw [scanLoop, if_neg hd, hm]
        exact hres

/-- C4 (amended): the scan's distance is the catalogue's minimum distance
(`⊤` when the catalogue is empty); the returned route is `none` exactly
when that minimum is `⊤` (so also for a non-empty catalogue whose features
are all unsupported); and when the minimum is finite the returned route is
the first feature attaining it — every feature before it in catalogue
order is strictly farther. -/
theorem nearestScan_characterization (lat lon : ℝ) (routes : List RouteFeature) :
    (nearestScan lat lon routes).2 = listMin lat lon routes ∧
    ((nearestScan lat lon routes).1 = none ↔ listMin lat lon routes = ⊤) ∧
    (listMin lat lon routes < ⊤ →
      ∃ pre r post, routes = pre ++ r :: post ∧
        distanceToGeometry lat lon r.geometry = listMin lat lon routes ∧
        (∀ f ∈ pre, listMin lat lon routes < distanceToGeometry lat lon f.geometry) ∧
        (nearestScan lat lon routes).1 =
          some { route := r, distance := listMin lat lon routes }) := by
  refine ⟨?_, ⟨?_, ?_⟩, ?_⟩
  · rw [nearestScan, scanLoop_snd]
    exact min_eq_right le_top
  · intro hnone
    by_contra hne
    obtain ⟨_, _, _, _, _, _, hres⟩ :=
      scanLoop_finds lat lon routes none ⊤ (lt_top_iff_ne_top.mpr hne)
    rw [nearestScan] at hnone
    rw [hnone] at hres
    exact Option.noConfusion hres
  · intro htop
    rw [nearestScan, scanLoop_stays lat lon routes none ⊤ (by rw [htop]; exact lt_irrefl ⊤)]
  · intro hlt
    exact scanLoop_finds lat lon routes none ⊤ hlt

/-- Witness for C4 on a one-route catalogue with a finite distance. -/
theorem nearestScan_characterization_witness :
    listMin 0 0 [pr8Route] < ⊤ ∧
      (∃ pre r post, ([pr8Route] : List RouteFeature) = pre ++ r :: post ∧
        distanceToGeometry 0 0 r.geometry = listMin 0 0 [pr8Route] ∧
        (∀ f ∈ pre, listMin 0 0 [pr8Route] < distanceToGeometry 0 0 f.geometry) ∧
        (nearestScan 0 0 [pr8Route]).1 =
          some { route := r, distance := listMin 0 0 [pr8Route] }) := by
  have hlt : listMin 0 0 [pr8Route] < ⊤ := by
    simp [listMin, distanceToGeometry, pr8Route, calculateDistance_self]
  exact ⟨hlt, (nearestScan_characterization 0 0 [pr8Route]).2.2 hlt⟩

/-- Counterexample to C4 as stated: a non-empty catalogue whose only
feature has an unsupported geometry makes the scan return no route at all,
not "the route with the globally minimum (infinite) distance". -/
theorem nearestScan_claim_counterexample :
    ([unsupportedRoute] : List RouteFeature) ≠ [] ∧
      (nearestScan 0 0 [unsupportedRoute]).1 = none ∧
      (nearestScan 0 0 [unsupportedRoute]).2 = ⊤ := by
  refine ⟨by simp, ?_, ?_⟩
  · simp [nearestScan, scanLoop, unsupportedRoute, distanceToGeometry]
  · simp [nearestScan, scanLoop, unsupportedRoute, distanceToGeometry]

/-- C1: whenever the scan finds a nearest route within the 50-meter
threshold that requires payment and is not recorded as paid today, the
proximity effect opens the route-detail (warning) panel for that route. -/
theorem proximity_warning (loc : UserLocation) (routes : List RouteFeature)
    (stored : List PaidRoute) (today : String) (panel : InfoPanelState)
    (closest : NearbyRoute)
    (hscan : (nearestScan loc.latitude loc.longitude routes).1 = some closest)
    (hnear : closest.distance ≤ PROXIMITY_THRESHOLD)
    (hpay : closest.route.properties.requiresPayment = true)
    (hunpaid : isRoutePaid stored closest.route.properties.id today = false) :
    checkProximity loc routes stored today panel =
      { isOpen := true, view := .routeDetail, selectedRoute := some closest.route,
        nearbyRoute := some closest } := by
  simp [checkProximity, hscan, hnear, hpay, hunpaid]

/-- Witness for C1: a fix on top of an unpaid payment-requiring route. -/
theorem proximity_warning_witness :
    (nearestScan (0 : ℝ) 0 [pr8Route]).1 =
        some { route := pr8Route, distance := ((0 : ℝ) : Meters) } ∧
      (((0 : ℝ) : Meters)) ≤ PROXIMITY_THRESHOLD ∧
      pr8Route.properties.requiresPayment = true ∧
      isRoutePaid [] pr8Route.properties.id "2025-06-01" = false ∧
      checkProximity { latitude := 0, longitude := 0, accuracy := 5 } [pr8Route] []
          "2025-06-01" { isOpen := false, view := .main } =
        { isOpen := true, view := .routeDetail, selectedRoute := some pr8Route,
          nearbyRoute := some { route := pr8Route, distance := ((0 : ℝ) : Meters) } } := by
  have hscan : (nearestScan (0 : ℝ) 0 [pr8Route]).1 =
      some { route := pr8Route, distance := ((0 : ℝ) : Meters) } := by
    simp [nearestScan, scanLoop, pr8Route, distanceToGeometry, calculateDistance_self]
  have hnear : (((0 : ℝ) : Meters)) ≤ PROXIMITY_THRESHOLD := by
    rw [PROXIMITY_THRESHOLD]
    exact WithTop.coe_le_coe.mpr (by norm_num)
  have hpay : ({ route := pr8Route, distance := ((0 : ℝ) : Meters) } :
      NearbyRoute).route.properties.requiresPayment = true := rfl
  have hunpaid : isRoutePaid []
      ({ route := pr8Route, distance := ((0 : ℝ) : Meters) } :
        NearbyRoute).route.properties.id "2025-06-01" = false := rfl
  exact ⟨hscan, hnear, rfl, rfl,
    proximity_warning _ _ _ _ _ _ hscan hnear hpay hunpaid⟩

/-- C2 as implemented: a fix directly on a route that does not require
payment is within the threshold, yet the proximity effect leaves the panel
state untouched — no show-info action exists in the code, contrary to the
spec and to the repository's own design document. -/
theorem proximity_free_route_no_action :
    (nearestScan (0 : ℝ) 0 [freeRoute]).1 =
        some { route := freeRoute, distance := ((0 : ℝ) : Meters) } ∧
      (((0 : ℝ) : Meters)) ≤ PROXIMITY_THRESHOLD ∧
      freeRoute.properties.requiresPayment = false ∧
      checkProximity { latitude := 0, longitude := 0, accuracy := 5 } [freeRoute] []
          "2025-06-01" { isOpen := false, view := .main } =
        { isOpen := false, view := .main } := by
  have hscan : (nearestScan (0 : ℝ) 0 [freeRoute]).1 =
      some { route := freeRoute, distance := ((0 : ℝ) : Meters) } := by
    simp [nearestScan, scanLoop, freeRoute, distanceToGeometry, calculateDistance_self]
  have hnear : (((0 : ℝ) : Meters)) ≤ PROXIMITY_THRESHOLD := by
    rw [PROXIMITY_THRESHOLD]
    exact WithTop.coe_le_coe.mpr (by norm_num)
  refine ⟨hscan, hnear, rfl, ?_⟩
  simp only [checkProximity]
  rw [hscan]
  simp [hnear, freeRoute, isRoutePaid]

/-- Counterexample to C7 as stated: a catalogue with a duplicated route id,
and one with an unsupported geometry variant, are both installed without
any `ValidationError` — the loading effect performs no validation at all. -/
theorem loadRoutes_claim_counterexample :
    hasDuplicateIds dupCatalogue ∧
      loadRoutes (Except.ok dupCatalogue) none = some dupCatalogue ∧
      loadRoutes (Except.ok [unsupportedRoute]) none = some [unsupportedRoute] ∧
      distanceToGeometry 0 0 unsupportedRoute.geometry = ⊤ := by
  refine ⟨?_, rfl, rfl, rfl⟩
  simp [hasDuplicateIds, dupCatalogue, pr8Route]

/-- C7 (amended): loading installs whatever catalogue the fetch produced,
with no duplicate-id or geometry-variant check; only a fetch/parse failure
prevents installation, leaving the previous catalogue in place. -/
theorem loadRoutes_amended (data : RouteCollection) (current : Option RouteCollection)
    (e : String) :
    loadRoutes (Except.ok data) current = some data ∧
      loadRoutes (Except.error e) current = current :=
  ⟨rfl, rfl⟩

end MadeiraPass
